import Mathlib

/-!
Shallow embedding of the two Locust load-test scripts of this repository:

* `src/testing-hw6/locustfile.py` — `ProductSearchUser`, whose single task
  `search` issues `GET /v1/products/search?q=<term>&limit=20` and validates the
  response inside a `catch_response` block (status 200, JSON body,
  `checked == 100`, `count <= 20`, `hits` present).

* `src/testing/locustfile.py` — `SimpleEStoreUser`, whose tasks issue bare
  `self.client.get` / `self.client.post` calls without `catch_response`, so the
  pass/fail classification of every one of them is the Locust default for the
  `requests`-based `HttpUser`: the response is recorded as a success exactly
  when `Response.raise_for_status()` does not raise, i.e. when the status code
  is outside the 4xx/5xx error range.

JSON values are modelled by the inductive type `Json`; numeric JSON fields are
modelled as integers (the contracts of the scripts only involve integer fields, and
floating point is out of scope). Python semantics the validator relies on are
made explicit: `dict.get` with and without a default, `in` on a dict,
`==`/`>` between a decoded JSON value and an int literal (where `>` raises
`TypeError` on a non-numeric operand, and `.get` on a non-dict raises
`AttributeError`), and `str()` formatting used by the f-string failure reason.
-/

/-- A decoded JSON value, as produced by `json.loads` in Python: `None`, `bool`,
`int`, `str`, `list`, `dict`.  Numeric fields are modelled as integers. -/
inductive Json where
  | null : Json
  | bool (b : Bool) : Json
  | int (n : Int) : Json
  | str (s : String) : Json
  | arr (elems : List Json) : Json
  | obj (entries : List (String × Json)) : Json

/-- The exceptions the `search` validator can let escape: `AttributeError`
(`.get` on a decoded value that is not a dict) and `TypeError` (`>` between a
non-numeric value and an int). -/
inductive PyExc where
  | attributeError : PyExc
  | typeError : PyExc
deriving DecidableEq

/-- The outcome a Locust validator records for one response:
`resp.success()` or `resp.failure(reason)`. -/
inductive Outcome where
  | success : Outcome
  | failure (reason : String) : Outcome
deriving DecidableEq

/-- Python `data.get(key)` on a dict: the value stored at `key`, or `None`
when the key is absent. -/
def dictGet (entries : List (String × Json)) (key : String) : Json :=
  match entries.lookup key with
  | some v => v
  | none => Json.null

/-- Python `data.get(key, default)` on a dict. -/
def dictGetD (entries : List (String × Json)) (key : String) (default : Json) : Json :=
  match entries.lookup key with
  | some v => v
  | none => default

/-- Python `key in data` on a dict. -/
def dictHasKey (entries : List (String × Json)) (key : String) : Bool :=
  entries.any (fun kv => kv.1 == key)

/-- The numeric value of a decoded JSON value under the Python arithmetic
comparisons: ints are themselves, bools are 0/1, everything else is
non-numeric. -/
def pyNum : Json → Option Int
  | Json.int n => some n
  | Json.bool b => some (if b then 1 else 0)
  | _ => none

/-- Python `v == m` for an int literal `m`: true exactly when `v` is numeric
with value `m` (never raises). -/
def pyEqInt (v : Json) (m : Int) : Bool :=
  match pyNum v with
  | some n => n == m
  | none => false

/-- Python `v > m` for an int literal `m`: compares numerically, and raises
`TypeError` when `v` is not numeric. -/
def pyGtInt (v : Json) (m : Int) : Except PyExc Bool :=
  match pyNum v with
  | some n => Except.ok (decide (m < n))
  | none => Except.error PyExc.typeError

/-- A single-quote character, used by Python `repr` of strings. -/
def singleQuote : String := String.singleton (Char.ofNat 39)

mutual

/-- Python `repr` of a decoded JSON value (used for elements nested inside
containers when `str` is applied to the container). -/
def pyRepr : Json → String
  | Json.null => "None"
  | Json.bool true => "True"
  | Json.bool false => "False"
  | Json.int n => toString n
  | Json.str s => singleQuote ++ s ++ singleQuote
  | Json.arr elems => "[" ++ pyReprList elems ++ "]"
  | Json.obj entries => "\x7b" ++ pyReprEntries entries ++ "\x7d"

/-- Comma-separated `repr`s of the elements of a list. -/
def pyReprList : List Json → String
  | [] => ""
  | [v] => pyRepr v
  | v :: rest => pyRepr v ++ ", " ++ pyReprList rest

/-- Comma-separated `repr(key): repr(value)` entries of a dict. -/
def pyReprEntries : List (String × Json) → String
  | [] => ""
  | [(k, v)] => singleQuote ++ k ++ singleQuote ++ ": " ++ pyRepr v
  | (k, v) :: rest =>
      singleQuote ++ k ++ singleQuote ++ ": " ++ pyRepr v ++ ", " ++ pyReprEntries rest

end

/-- Python `str` of a decoded JSON value, as used by f-string interpolation
(`f"... got \x7bvalue\x7d"`): a string renders as itself, everything else as
its `repr`. -/
def pyStr : Json → String
  | Json.str s => s
  | v => pyRepr v

/-- The fixed query-term list `QUERIES` of `src/testing-hw6/locustfile.py`. -/
def QUERIES : List String :=
  ["alpha", "beta", "gamma", "delta", "omega",
   "electronics", "books", "home", "toys", "fashion",
   "product"]

/-- HTTP method of a request template. -/
inductive Method where
  | GET : Method
  | POST : Method
deriving DecidableEq

/-- A request as issued by a task: method plus the URL string the task
builds. -/
structure Request where
  method : Method
  url : String

/-- The request built by one execution of `ProductSearchUser.search`:
`random.choice(QUERIES)` picks the term at some valid index `i`, and the task
issues `GET /v1/products/search?q=<term>&limit=20`
(`src/testing-hw6/locustfile.py`, lines 64-73). -/
def ProductSearchUser.searchRequest (i : Fin QUERIES.length) : Request :=
  { method := Method.GET
    url := "/v1/products/search?q=" ++ QUERIES.get i ++ "&limit=20" }

/-- The response validator of `ProductSearchUser.search`
(`src/testing-hw6/locustfile.py`, lines 74-97), applied to the status code
of the response and body.  `body = none` models a body that is not well-formed
JSON (`resp.json()` raises `json.JSONDecodeError`, which the task catches);
`body = some j` models a body decoding to the JSON value `j`.  The Python
code is, in order:

* `if resp.status_code != 200: resp.failure(f"HTTP …"); return`
* `try: data = resp.json() except json.JSONDecodeError: resp.failure("Invalid JSON"); return`
* `if data.get("checked") != 100: resp.failure(f"checked != 100 (got …)"); return`
* `if data.get("count", 0) > 20 or "hits" not in data: resp.failure("bad payload"); return`
* `resp.success()`

`data.get(…)` on a decoded value that is not a dict raises `AttributeError`,
and `… > 20` on a non-numeric value raises `TypeError`; neither is caught by
the task, so both escape as `Except.error`. -/
def ProductSearchUser.search (status : Nat) (body : Option Json) : Except PyExc Outcome :=
  if status ≠ 200 then
    Except.ok (Outcome.failure ("HTTP " ++ toString status))
  else
    match body with
    | none => Except.ok (Outcome.failure "Invalid JSON")
    | some (Json.obj data) =>
        if !pyEqInt (dictGet data "checked") 100 then
          Except.ok (Outcome.failure
            ("checked != 100 (got " ++ pyStr (dictGet data "checked") ++ ")"))
        else
          match pyGtInt (dictGetD data "count" (Json.int 0)) 20 with
          | Except.error e => Except.error e
          | Except.ok over =>
              if over || !dictHasKey data "hits" then
                Except.ok (Outcome.failure "bad payload")
              else
                Except.ok Outcome.success
    | some _ => Except.error PyExc.attributeError

/-- Characterisation of the inputs on which `ProductSearchUser.search` lets a
Python exception escape: status 200 and either a body decoding to a non-dict
JSON value, or a dict body passing the `checked == 100` test whose `count`
field (defaulted to 0) is non-numeric. -/
def searchRaises (status : Nat) (body : Option Json) : Bool :=
  (status == 200) &&
    match body with
    | none => false
    | some (Json.obj data) =>
        pyEqInt (dictGet data "checked") 100 &&
          (pyNum (dictGetD data "count" (Json.int 0))).isNone
    | some _ => true

/-- The success contract of the spec for the search validator, stated from the
words of the spec (status 200; body parses as well-formed structured data, i.e. a
JSON object; field `checked` equals exactly 100; field `count` is at most the
requested limit 20; field `hits` is present). -/
def searchSuccessSpec (status : Nat) (body : Option Json) : Prop :=
  status = 200 ∧ ∃ data, body = some (Json.obj data) ∧
    dictGet data "checked" = Json.int 100 ∧
    (∃ c : Int, pyNum (dictGetD data "count" (Json.int 0)) = some c ∧ c ≤ 20) ∧
    dictHasKey data "hits" = true

/-! ## `src/testing/locustfile.py` — `SimpleEStoreUser` -/

/-- `PRODUCT_OK = 12345` — exists: GET 200 / POST 204. -/
def PRODUCT_OK : Nat := 12345

/-- `PRODUCT_404 = 54321` — does not exist: GET/POST 404. -/
def PRODUCT_404 : Nat := 54321

/-- `PRODUCT_GET_500 = 50000` — sentinel forcing GET 500. -/
def PRODUCT_GET_500 : Nat := 50000

/-- `PRODUCT_POST_500 = 99999` — sentinel forcing POST 500. -/
def PRODUCT_POST_500 : Nat := 99999

/-- `VALID_BODY` of `src/testing/locustfile.py` (lines 20-27). -/
def VALID_BODY : List (String × Json) :=
  [("sku", Json.str "DEF-456-QWE"),
   ("manufacturer", Json.str "Beta Corp"),
   ("category_id", Json.int 456),
   ("weight", Json.int 800),
   ("some_other_id", Json.int 22)]

/-- `INVALID_BODY_MISSING` (lines 29-36): empty `sku`. -/
def INVALID_BODY_MISSING : List (String × Json) :=
  [("sku", Json.str ""),
   ("manufacturer", Json.str "X"),
   ("category_id", Json.int 1),
   ("weight", Json.int 100),
   ("some_other_id", Json.int 1)]

/-- `MISMATCH_ID_BODY` (lines 39-46): `product_id = 999`. -/
def MISMATCH_ID_BODY : List (String × Json) :=
  [("product_id", Json.int 999),
   ("sku", Json.str "OK"),
   ("manufacturer", Json.str "OK"),
   ("category_id", Json.int 1),
   ("weight", Json.int 100),
   ("some_other_id", Json.int 1)]

/-- One task of `SimpleEStoreUser`: the fixed request template it sends
(method, path, optional JSON body) and the Locust display name. -/
structure HttpTask where
  method : Method
  path : String
  body : Option (List (String × Json))
  name : String

/-- `requests.Response.raise_for_status()` raises `HTTPError` exactly for
status codes in the 4xx/5xx ranges. -/
def raise_for_status (status : Nat) : Bool :=
  decide (400 ≤ status) && decide (status < 600)

/-- The Locust default classification for a request issued without
`catch_response` (every task of `SimpleEStoreUser` does this): the response is
recorded as a success exactly when `raise_for_status` does not raise.  The
classification depends only on the status code, never on the request template of the task
or the response body. -/
def classifyDefault (_t : HttpTask) (status : Nat) : Bool :=
  !raise_for_status status

/-- Task `get_200` (lines 54-56): `GET /v1/products/12345`. -/
def SimpleEStoreUser.get_200 : HttpTask :=
  { method := Method.GET
    path := "/v1/products/" ++ toString PRODUCT_OK
    body := none
    name := "GET /v1/products/:id [200]" }

/-- Task `get_404` (lines 58-60): `GET /v1/products/54321`. -/
def SimpleEStoreUser.get_404 : HttpTask :=
  { method := Method.GET
    path := "/v1/products/" ++ toString PRODUCT_404
    body := none
    name := "GET /v1/products/:id [404]" }

/-- Task `get_500` (lines 62-64): `GET /v1/products/50000`. -/
def SimpleEStoreUser.get_500 : HttpTask :=
  { method := Method.GET
    path := "/v1/products/" ++ toString PRODUCT_GET_500
    body := none
    name := "GET /v1/products/:id [500]" }

/-- Task `post_204` (lines 67-74): `POST /v1/products/12345/details` with
`VALID_BODY`. -/
def SimpleEStoreUser.post_204 : HttpTask :=
  { method := Method.POST
    path := "/v1/products/" ++ toString PRODUCT_OK ++ "/details"
    body := some VALID_BODY
    name := "POST /v1/products/:id/details [204]" }

/-- Task `post_400_missing` (lines 76-83): `POST /v1/products/12345/details`
with `INVALID_BODY_MISSING`. -/
def SimpleEStoreUser.post_400_missing : HttpTask :=
  { method := Method.POST
    path := "/v1/products/" ++ toString PRODUCT_OK ++ "/details"
    body := some INVALID_BODY_MISSING
    name := "POST /v1/products/:id/details [400-missing/invalid]" }

/-- Task `post_400_mismatch` (lines 86-93): `POST /v1/products/12345/details`
with `MISMATCH_ID_BODY`. -/
def SimpleEStoreUser.post_400_mismatch : HttpTask :=
  { method := Method.POST
    path := "/v1/products/" ++ toString PRODUCT_OK ++ "/details"
    body := some MISMATCH_ID_BODY
    name := "POST /v1/products/:id/details [400-mismatch-id]" }

/-- Task `post_404` (lines 95-102): `POST /v1/products/54321/details` with
`VALID_BODY`. -/
def SimpleEStoreUser.post_404 : HttpTask :=
  { method := Method.POST
    path := "/v1/products/" ++ toString PRODUCT_404 ++ "/details"
    body := some VALID_BODY
    name := "POST /v1/products/:id/details [404]" }

/-- Task `post_500` (lines 104-111): `POST /v1/products/99999/details` with
`VALID_BODY`. -/
def SimpleEStoreUser.post_500 : HttpTask :=
  { method := Method.POST
    path := "/v1/products/" ++ toString PRODUCT_POST_500 ++ "/details"
    body := some VALID_BODY
    name := "POST /v1/products/:id/details [500]" }

/-! ## Helper lemmas -/

theorem pyEqInt_hundred_iff (v : Json) : pyEqInt v 100 = true ↔ v = Json.int 100 := by
  cases v <;> simp [pyEqInt, pyNum]
  case bool b => cases b <;> simp

theorem pyGtInt_ok_false_iff (v : Json) :
    pyGtInt v 20 = Except.ok false ↔ ∃ c : Int, pyNum v = some c ∧ c ≤ 20 := by
  cases h : pyNum v <;> simp [pyGtInt, h]

theorem pyGtInt_ok_true_iff (v : Json) :
    pyGtInt v 20 = Except.ok true ↔ ∃ c : Int, pyNum v = some c ∧ 20 < c := by
  cases h : pyNum v <;> simp [pyGtInt, h]

theorem pyGtInt_error_iff (v : Json) :
    (∃ e, pyGtInt v 20 = Except.error e) ↔ (pyNum v).isNone = true := by
  cases h : pyNum v <;> simp [pyGtInt, h]

theorem lookup_eq_none_of_hasKey_false (data : List (String × Json)) (k : String)
    (h : dictHasKey data k = false) : data.lookup k = none := by
  induction data with
  | nil => rfl
  | cons kv rest ih =>
      have hcons : (kv.1 == k) = false ∧ List.any rest (fun kv => kv.1 == k) = false := by
        simpa only [dictHasKey, List.any_cons, Bool.or_eq_false_iff] using h
      have h1 : kv.1 ≠ k := beq_eq_false_iff_ne.mp hcons.1
      have hk : (k == kv.1) = false := beq_eq_false_iff_ne.mpr (Ne.symm h1)
      simp only [List.lookup, hk]
      exact ih hcons.2

theorem search_200_obj (data : List (String × Json)) :
    ProductSearchUser.search 200 (some (Json.obj data)) =
      (if !pyEqInt (dictGet data "checked") 100 then
        Except.ok (Outcome.failure
          ("checked != 100 (got " ++ pyStr (dictGet data "checked") ++ ")"))
      else
        match pyGtInt (dictGetD data "count" (Json.int 0)) 20 with
        | Except.error e => Except.error e
        | Except.ok over =>
            if over || !dictHasKey data "hits" then
              Except.ok (Outcome.failure "bad payload")
            else
              Except.ok Outcome.success) := rfl

theorem search_ok_success_iff (status : Nat) (body : Option Json) :
    ProductSearchUser.search status body = Except.ok Outcome.success ↔
      searchSuccessSpec status body := by
  constructor
  · intro h
    by_cases hs : status = 200
    · subst hs
      cases body with
      | none => exact absurd h (by simp [ProductSearchUser.search])
      | some j =>
          cases j with
          | obj data =>
              rw [search_200_obj] at h
              by_cases hc : pyEqInt (dictGet data "checked") 100 = true
              · rw [hc] at h
                simp only [Bool.not_true, Bool.false_eq_true, if_false] at h
                cases hgt : pyGtInt (dictGetD data "count" (Json.int 0)) 20 with
                | error e => rw [hgt] at h; exact absurd h (by simp)
                | ok over =>
                    rw [hgt] at h
                    cases over with
                    | true => exact absurd h (by simp)
                    | false =>
                        by_cases hh : dictHasKey data "hits" = true
                        · exact ⟨rfl, data, rfl, (pyEqInt_hundred_iff _).mp hc,
                            (pyGtInt_ok_false_iff _).mp hgt, hh⟩
                        · rw [Bool.not_eq_true] at hh
                          rw [hh] at h
                          exact absurd h (by simp)
              · rw [Bool.not_eq_true] at hc
                rw [hc] at h
                exact absurd h (by simp)
          | null => exact absurd h (by simp [ProductSearchUser.search])
          | bool b => exact absurd h (by simp [ProductSearchUser.search])
          | int n => exact absurd h (by simp [ProductSearchUser.search])
          | str s => exact absurd h (by simp [ProductSearchUser.search])
          | arr elems => exact absurd h (by simp [ProductSearchUser.search])
    · unfold ProductSearchUser.search at h
      rw [if_pos hs] at h
      exact absurd h (by simp)
  · rintro ⟨hs, data, hbody, hchecked, ⟨c, hnum, hc20⟩, hhits⟩
    subst hs
    subst hbody
    have h1 : pyEqInt (dictGet data "checked") 100 = true :=
      (pyEqInt_hundred_iff _).mpr hchecked
    have h2 : pyGtInt (dictGetD data "count" (Json.int 0)) 20 = Except.ok false :=
      (pyGtInt_ok_false_iff _).mpr ⟨c, hnum, hc20⟩
    simp [ProductSearchUser.search, h1, h2, hhits]

theorem search_error_iff (status : Nat) (body : Option Json) :
    (∃ e, ProductSearchUser.search status body = Except.error e) ↔
      searchRaises status body = true := by
  by_cases hs : status = 200
  · subst hs
    cases body with
    | none => simp [ProductSearchUser.search, searchRaises]
    | some j =>
        cases j with
        | obj data =>
            by_cases hc : pyEqInt (dictGet data "checked") 100 = true
            · cases hnum : pyNum (dictGetD data "count" (Json.int 0)) with
              | none =>
                  simp [ProductSearchUser.search, searchRaises, hc, pyGtInt, hnum]
              | some c =>
                  by_cases hover : (20 < c)
                  · simp [ProductSearchUser.search, searchRaises, hc, pyGtInt, hnum, hover]
                  · by_cases hh : dictHasKey data "hits" = true
                    · simp [ProductSearchUser.search, searchRaises, hc, pyGtInt, hnum,
                        hover, hh]
                    · rw [Bool.not_eq_true] at hh
                      simp [ProductSearchUser.search, searchRaises, hc, pyGtInt, hnum,
                        hover, hh]
            · rw [Bool.not_eq_true] at hc
              simp [ProductSearchUser.search, searchRaises, hc]
        | null => simp [ProductSearchUser.search, searchRaises]
        | bool b => simp [ProductSearchUser.search, searchRaises]
        | int n => simp [ProductSearchUser.search, searchRaises]
        | str s => simp [ProductSearchUser.search, searchRaises]
        | arr elems => simp [ProductSearchUser.search, searchRaises]
  · simp [ProductSearchUser.search, searchRaises, hs]

theorem search_ok_iff (status : Nat) (body : Option Json) :
    (∃ o, ProductSearchUser.search status body = Except.ok o) ↔
      searchRaises status body = false := by
  cases hx : ProductSearchUser.search status body with
  | error e =>
      have ht : searchRaises status body = true := (search_error_iff _ _).mp ⟨e, hx⟩
      simp [ht]
  | ok o =>
      cases hb : searchRaises status body with
      | false => exact iff_of_true ⟨o, rfl⟩ rfl
      | true =>
          rcases (search_error_iff status body).mpr hb with ⟨e, he⟩
          rw [hx] at he
          exact absurd he (by simp)

/-! ## Claim theorems -/

/-- C1 counterexample: a status-200 response whose body is valid JSON but not
a JSON object (here the array `[]`) is not recorded as a named failure — the
validator raises `AttributeError` instead, so the catch-all part of claim C1
is false at this input. -/
theorem search_array_body_not_recorded :
    ProductSearchUser.search 200 (some (Json.arr [])) =
      Except.error PyExc.attributeError := rfl

/-- C1 (amended): a response is recorded as success if and only if the status
is 200, the body decodes to a JSON object whose field `checked` equals exactly
100, whose field `count` (defaulted to 0 when absent) is numeric and at most
the requested limit 20, and which contains the field `hits`; and every other
response on which the validator does not raise (i.e. excluding bodies
decoding to a non-object JSON value, and objects with `checked == 100` and a
non-numeric `count`) is recorded as a named failure. -/
theorem search_success_contract (status : Nat) (body : Option Json) :
    (ProductSearchUser.search status body = Except.ok Outcome.success ↔
      searchSuccessSpec status body) ∧
    (searchRaises status body = false →
      ProductSearchUser.search status body = Except.ok Outcome.success ∨
        ∃ r, ProductSearchUser.search status body = Except.ok (Outcome.failure r)) := by
  refine ⟨search_ok_success_iff status body, fun hr => ?_⟩
  rcases (search_ok_iff status body).mpr hr with ⟨o, ho⟩
  cases o with
  | success => exact Or.inl ho
  | failure r => exact Or.inr ⟨r, ho⟩

/-- C1 witness: at status 500 with an undecodable body the validator does not
raise, so by `search_success_contract` it records success or a named failure
(here in fact the failure `HTTP 500`). -/
theorem search_success_contract_witness :
    ProductSearchUser.search 500 none = Except.ok Outcome.success ∨
      ∃ r, ProductSearchUser.search 500 none = Except.ok (Outcome.failure r) :=
  (search_success_contract 500 none).2 rfl

/-- C2 counterexample: on a status-200 response whose body decodes to the JSON
value `null` (so `data` is the Python `None`, not a dict), `data.get` raises
`AttributeError` past the validator, so claim C2 is false at this input. -/
theorem search_null_body_raises :
    ProductSearchUser.search 200 (some Json.null) =
      Except.error PyExc.attributeError := rfl

/-- C2 (amended): the validator records exactly one outcome (success or a
named failure) precisely on the responses where it does not raise, which are
all responses except those with status 200 whose body decodes to a non-object
JSON value, or to an object passing the `checked == 100` test with a
non-numeric `count` field; on those excepted responses an `AttributeError`
or `TypeError` escapes the validator. -/
theorem search_termination_classification (status : Nat) (body : Option Json) :
    ((∃ o, ProductSearchUser.search status body = Except.ok o) ↔
      searchRaises status body = false) ∧
    (searchRaises status body = true →
      ProductSearchUser.search status body = Except.error PyExc.attributeError ∨
        ProductSearchUser.search status body = Except.error PyExc.typeError) := by
  refine ⟨search_ok_iff status body, fun hr => ?_⟩
  rcases (search_error_iff status body).mpr hr with ⟨e, he⟩
  cases e with
  | attributeError => exact Or.inl he
  | typeError => exact Or.inr he

/-- C2 witness: a status-200 response whose body decodes to the JSON string
`"x"` makes the validator raise, by `search_termination_classification`. -/
theorem search_termination_classification_witness :
    ProductSearchUser.search 200 (some (Json.str "x")) =
        Except.error PyExc.attributeError ∨
      ProductSearchUser.search 200 (some (Json.str "x")) =
        Except.error PyExc.typeError :=
  (search_termination_classification 200 (some (Json.str "x"))).2 rfl

/-- C7 (confirmed): on a status-200 response whose body decodes to a JSON
object in which the field `checked` does not equal 100 under the Python `==`
(including when it is absent, where `data.get` yields `None`), the validator
records — whatever the other fields hold, so with no further checks — the
failure whose reason is the f-string `checked != 100 (got <value>)`, a string
containing the observed value of `checked`. -/
theorem search_checked_mismatch_reports_value (data : List (String × Json))
    (h : pyEqInt (dictGet data "checked") 100 = false) :
    ProductSearchUser.search 200 (some (Json.obj data)) =
      Except.ok (Outcome.failure
        ("checked != 100 (got " ++ pyStr (dictGet data "checked") ++ ")")) ∧
    ∃ pre post,
      "checked != 100 (got " ++ pyStr (dictGet data "checked") ++ ")" =
        pre ++ pyStr (dictGet data "checked") ++ post := by
  constructor
  · rw [search_200_obj, h]
    simp
  · exact ⟨"checked != 100 (got ", ")", rfl⟩

/-- C7 witness: a body `(checked = 7, count = 999, hits absent)` is rejected
with the reason `checked != 100 (got 7)`, and the later checks (which would
also fail here) are never reached. -/
theorem search_checked_mismatch_reports_value_witness :
    pyEqInt (dictGet [("checked", Json.int 7), ("count", Json.int 999)] "checked") 100
        = false ∧
    ProductSearchUser.search 200
        (some (Json.obj [("checked", Json.int 7), ("count", Json.int 999)])) =
      Except.ok (Outcome.failure "checked != 100 (got 7)") := by
  refine ⟨rfl, ?_⟩
  have h := (search_checked_mismatch_reports_value
    [("checked", Json.int 7), ("count", Json.int 999)] rfl).1
  exact h.trans (by rfl)

/-- C8 counterexample: a status-200 JSON-object body with `checked = 100` and
`hits` present but no `count` field is recorded as success, so the part of
claim C8 requiring a missing `count` to be classified as a failure is false
on the code. -/
theorem search_missing_count_not_failure :
    ProductSearchUser.search 200
        (some (Json.obj [("checked", Json.int 100), ("hits", Json.arr [])])) =
      Except.ok Outcome.success := rfl

/-- C8 (amended): on a status-200 JSON-object body with `checked` equal to
100, the validator records the failure with exact reason `bad payload`
whenever the (numeric) `count` value exceeds the requested limit 20 or the
field `hits` is absent; a missing `count` field, however, defaults to 0 and
with `hits` present the response is recorded as success, not a failure. -/
theorem search_bad_payload_classification (data : List (String × Json))
    (hchecked : pyEqInt (dictGet data "checked") 100 = true) :
    (∀ c : Int, pyNum (dictGetD data "count" (Json.int 0)) = some c →
      (20 < c ∨ dictHasKey data "hits" = false) →
      ProductSearchUser.search 200 (some (Json.obj data)) =
        Except.ok (Outcome.failure "bad payload")) ∧
    (dictHasKey data "count" = false → dictHasKey data "hits" = true →
      ProductSearchUser.search 200 (some (Json.obj data)) =
        Except.ok Outcome.success) := by
  constructor
  · intro c hc hbad
    rw [search_200_obj, hchecked]
    simp only [Bool.not_true, Bool.false_eq_true, if_false]
    have hgt : pyGtInt (dictGetD data "count" (Json.int 0)) 20 =
        Except.ok (decide (20 < c)) := by
      simp [pyGtInt, hc]
    rw [hgt]
    rcases hbad with hover | hmiss
    · have : decide (20 < c) = true := decide_eq_true hover
      simp [this]
    · simp [hmiss]
  · intro hnocount hhits
    have hlookup := lookup_eq_none_of_hasKey_false data "count" hnocount
    have hd : dictGetD data "count" (Json.int 0) = Json.int 0 := by
      simp [dictGetD, hlookup]
    rw [search_200_obj, hchecked]
    simp [hd, pyGtInt, pyNum, hhits]

/-- C8 witness: with `checked = 100`, `count = 21` and `hits` present, the
response is recorded as the failure `bad payload` (21 exceeds the limit
20). -/
theorem search_bad_payload_classification_witness :
    pyEqInt (dictGet [("checked", Json.int 100), ("count", Json.int 21),
        ("hits", Json.arr [])] "checked") 100 = true ∧
    ProductSearchUser.search 200
        (some (Json.obj [("checked", Json.int 100), ("count", Json.int 21),
          ("hits", Json.arr [])])) =
      Except.ok (Outcome.failure "bad payload") :=
  ⟨rfl, (search_bad_payload_classification
      [("checked", Json.int 100), ("count", Json.int 21), ("hits", Json.arr [])]
      rfl).1 21 rfl (Or.inl (by decide))⟩

/-- C10 (confirmed): on a status-200 JSON-object body with `checked` equal to
100 and `hits` present but no `count` field, `data.get("count", 0)` yields
the default 0 and the validator records success rather than a failure. -/
theorem search_missing_count_defaults_to_zero (data : List (String × Json))
    (hchecked : dictGet data "checked" = Json.int 100)
    (hhits : dictHasKey data "hits" = true)
    (hnocount : dictHasKey data "count" = false) :
    dictGetD data "count" (Json.int 0) = Json.int 0 ∧
    ProductSearchUser.search 200 (some (Json.obj data)) =
      Except.ok Outcome.success := by
  have hlookup := lookup_eq_none_of_hasKey_false data "count" hnocount
  have hd : dictGetD data "count" (Json.int 0) = Json.int 0 := by
    simp [dictGetD, hlookup]
  refine ⟨hd, ?_⟩
  rw [search_200_obj, (pyEqInt_hundred_iff _).mpr hchecked]
  simp [hd, pyGtInt, pyNum, hhits]

/-- C10 witness: the concrete body `(checked = 100, hits = [])` with no
`count` field is recorded as success with the defaulted count 0. -/
theorem search_missing_count_defaults_to_zero_witness :
    dictGetD [("checked", Json.int 100), ("hits", Json.arr [])] "count"
        (Json.int 0) = Json.int 0 ∧
    ProductSearchUser.search 200
        (some (Json.obj [("checked", Json.int 100), ("hits", Json.arr [])])) =
      Except.ok Outcome.success :=
  search_missing_count_defaults_to_zero
    [("checked", Json.int 100), ("hits", Json.arr [])] rfl rfl rfl

/-- C9 (confirmed): every request built by the `search` task — for any index
`random.choice` can pick — is a GET whose query term is a member of the fixed
`QUERIES` list and whose URL carries the fixed parameter `limit=20`. -/
theorem searchRequest_term_in_QUERIES (i : Fin QUERIES.length) :
    (ProductSearchUser.searchRequest i).method = Method.GET ∧
    ∃ q, q ∈ QUERIES ∧
      (ProductSearchUser.searchRequest i).url =
        "/v1/products/search?q=" ++ q ++ "&limit=20" :=
  ⟨rfl, QUERIES.get i, List.get_mem QUERIES i.1 i.2, rfl⟩

/-- C9 witness: the request for the first query term is a GET for the member
`alpha` of `QUERIES` with `limit=20`. -/
theorem searchRequest_term_in_QUERIES_witness :
    (ProductSearchUser.searchRequest ⟨0, by decide⟩).method = Method.GET ∧
    ∃ q, q ∈ QUERIES ∧
      (ProductSearchUser.searchRequest ⟨0, by decide⟩).url =
        "/v1/products/search?q=" ++ q ++ "&limit=20" :=
  searchRequest_term_in_QUERIES ⟨0, by decide⟩

/-- C3 (code bug): the tasks `get_404` and `post_404` do target identifier
54321 (`post_404` with `VALID_BODY`), but since neither uses
`catch_response`, the Locust default classification applies and the
documented expected status 404 is recorded as a failure while a 200 would be
recorded as success — the opposite of the success-only-on-404 contract. -/
theorem get_404_post_404_misclassify :
    SimpleEStoreUser.get_404.path = "/v1/products/54321" ∧
    SimpleEStoreUser.get_404.method = Method.GET ∧
    SimpleEStoreUser.post_404.path = "/v1/products/54321/details" ∧
    SimpleEStoreUser.post_404.method = Method.POST ∧
    SimpleEStoreUser.post_404.body = some VALID_BODY ∧
    classifyDefault SimpleEStoreUser.get_404 404 = false ∧
    classifyDefault SimpleEStoreUser.post_404 404 = false ∧
    classifyDefault SimpleEStoreUser.get_404 200 = true ∧
    classifyDefault SimpleEStoreUser.post_404 200 = true :=
  ⟨rfl, rfl, rfl, rfl, rfl, rfl, rfl, rfl, rfl⟩

/-- C4 (code bug): the tasks `get_500` and `post_500` do target the sentinel
identifiers 50000 and 99999, but both use the Locust default classification,
so the documented expected status 500 is recorded as a failure while a 200
would be recorded as success — the opposite of the success-only-on-500
contract. -/
theorem get_500_post_500_misclassify :
    SimpleEStoreUser.get_500.path = "/v1/products/50000" ∧
    SimpleEStoreUser.get_500.method = Method.GET ∧
    SimpleEStoreUser.post_500.path = "/v1/products/99999/details" ∧
    SimpleEStoreUser.post_500.method = Method.POST ∧
    SimpleEStoreUser.post_500.body = some VALID_BODY ∧
    classifyDefault SimpleEStoreUser.get_500 500 = false ∧
    classifyDefault SimpleEStoreUser.post_500 500 = false ∧
    classifyDefault SimpleEStoreUser.get_500 200 = true ∧
    classifyDefault SimpleEStoreUser.post_500 200 = true :=
  ⟨rfl, rfl, rfl, rfl, rfl, rfl, rfl, rfl, rfl⟩

/-- C5 (code bug): the tasks `post_400_missing` and `post_400_mismatch` do
post `INVALID_BODY_MISSING` (empty `sku`) and `MISMATCH_ID_BODY`
(`product_id = 999`) to path id 12345, but both use the Locust default
classification, so the documented expected status 400 is recorded as a
failure while a 204 would be recorded as success — the opposite of the
success-only-on-400 contract. -/
theorem post_400_tasks_misclassify :
    SimpleEStoreUser.post_400_missing.path = "/v1/products/12345/details" ∧
    SimpleEStoreUser.post_400_missing.body = some INVALID_BODY_MISSING ∧
    dictGet INVALID_BODY_MISSING "sku" = Json.str "" ∧
    SimpleEStoreUser.post_400_mismatch.path = "/v1/products/12345/details" ∧
    SimpleEStoreUser.post_400_mismatch.body = some MISMATCH_ID_BODY ∧
    dictGet MISMATCH_ID_BODY "product_id" = Json.int 999 ∧
    classifyDefault SimpleEStoreUser.post_400_missing 400 = false ∧
    classifyDefault SimpleEStoreUser.post_400_mismatch 400 = false ∧
    classifyDefault SimpleEStoreUser.post_400_missing 204 = true ∧
    classifyDefault SimpleEStoreUser.post_400_mismatch 204 = true :=
  ⟨rfl, rfl, rfl, rfl, rfl, rfl, rfl, rfl, rfl, rfl⟩

/-- C6 counterexample: the `get_200` task (GET on identifier 12345) records a
204 response as a success, so the claim that it is classified success only
when the status is exactly 200 is false at status 204. -/
theorem get_200_accepts_204 :
    classifyDefault SimpleEStoreUser.get_200 204 = true ∧
    SimpleEStoreUser.get_200.path = "/v1/products/12345" := ⟨rfl, rfl⟩

/-- C6 (amended): `get_200` and `post_204` (both on identifier 12345,
`post_204` sending `VALID_BODY`) use the Locust default classification:
success exactly when the status is outside the 4xx/5xx error range.  In
particular 200 (GET) and 204 (POST) are recorded as success, but exclusivity
is not enforced — every other non-error status is recorded as success as
well. -/
theorem get_200_post_204_default_classification (status : Nat) :
    (classifyDefault SimpleEStoreUser.get_200 status = true ↔
      ¬(400 ≤ status ∧ status < 600)) ∧
    (classifyDefault SimpleEStoreUser.post_204 status = true ↔
      ¬(400 ≤ status ∧ status < 600)) ∧
    classifyDefault SimpleEStoreUser.get_200 200 = true ∧
    classifyDefault SimpleEStoreUser.post_204 204 = true ∧
    SimpleEStoreUser.get_200.path = "/v1/products/12345" ∧
    SimpleEStoreUser.post_204.path = "/v1/products/12345/details" ∧
    SimpleEStoreUser.post_204.body = some VALID_BODY := by
  refine ⟨?_, ?_, rfl, rfl, rfl, rfl, rfl⟩ <;>
    · simp [classifyDefault, raise_for_status]
      omega
